import Mathlib

/-!
Shallow embedding of `imgur-enumerator` (`src/main.rs`) and verification of its
specification claims.  Machine integers are modelled as `Nat` with explicit
bounds where overflow matters; fallible operations return `Option`; the
concurrent parts are modelled as explicit step relations on state records.
-/

namespace ImgurEnum

/-! ### Candidate generator (`UriGenerator`, main.rs lines 18-52) -/

/-- The fixed base address, `const BASE_URL` (main.rs line 18). -/
def BASE_URL : String := "https://i.imgur.com/"

/-- The 62-character alphabet of `rand::distributions::Alphanumeric`:
uppercase letters, lowercase letters, digits. -/
def alphanumericChars : List Char :=
  "ABCDEFGHIJKLMNOPQRSTUVWXYZabcdefghijklmnopqrstuvwxyz0123456789".toList

/-- One draw of `thread_rng().sample(Alphanumeric)` (main.rs line 43).  The
thread-local RNG is modelled by the raw random value `r : Nat`; the
distribution maps it uniformly onto the 62-character alphabet. -/
def sampleAlphanumeric (r : Nat) : Char :=
  alphanumericChars.getD (r % 62) 'A'

/-- The random token built in `next` (main.rs lines 42-45): seven successive
`Alphanumeric` samples collected into a string.  `rng i` is the raw random
value of the `i`-th draw. -/
def randomToken (rng : Nat → Nat) : String :=
  String.mk ((List.range 7).map (fun i => sampleAlphanumeric (rng i)))

/-- `struct UriGenerator` (main.rs lines 20-23). -/
structure UriGenerator where
  base_url : String
  extension : String
deriving DecidableEq, Repr

/-- `UriGenerator::new` (main.rs lines 26-31). -/
def UriGenerator.new (base_url extension : String) : UriGenerator :=
  ⟨base_url, extension⟩

/-- A parsed `hyper::Uri` restricted to the parts the program reads:
`scheme_str`, `authority_part`, `path_and_query` (main.rs lines 313-317). -/
structure Uri where
  scheme : String
  authority : String
  path_and_query : String
deriving DecidableEq, Repr

/-- Scheme characters accepted by the modelled parser. -/
def isSchemeChar (c : Char) : Bool := c.isAlpha

/-- Authority (host) characters accepted by the modelled parser. -/
def isAuthorityChar (c : Char) : Bool := c.isAlphanum || c == '.' || c == '-'

/-- Path/query characters accepted by the modelled parser. -/
def isPathChar (c : Char) : Bool :=
  c.isAlphanum || c == '.' || c == '/' || c == '-' || c == '_' || c == '?' || c == '=' || c == '&'

/-- Split a character list at the first `':'`, requiring it to be followed by
`"//"`: returns the scheme part and the remainder after `"://"`. -/
def splitScheme : List Char → Option (List Char × List Char)
  | [] => none
  | c :: cs =>
    if c = ':' then
      match cs with
      | '/' :: '/' :: rest => some ([], rest)
      | _ => none
    else
      (splitScheme cs).map (fun p => (c :: p.1, p.2))

/-- Split a character list at the first `'/'`: the authority part and the
path part (the path keeps its leading slash). -/
def splitAtSlash : List Char → List Char × List Char
  | [] => ([], [])
  | c :: cs =>
    if c = '/' then ([], c :: cs)
    else
      let p := splitAtSlash cs
      (c :: p.1, p.2)

/-- Model of the external `hyper`/`http` URI parser used by
`.parse::<Uri>()` (main.rs line 48): an absolute URI is
`scheme "://" authority path`, with a nonempty alphabetic scheme, a nonempty
authority of host characters, and a path of path characters.  `none` models a
parse error (the `.unwrap()` panic case of `next`). -/
def parseUriChars (cs : List Char) : Option Uri :=
  match splitScheme cs with
  | none => none
  | some (scheme, rest) =>
    if scheme ≠ [] ∧ scheme.all isSchemeChar then
      let p := splitAtSlash rest
      if p.1 ≠ [] ∧ p.1.all isAuthorityChar ∧ p.2 ≠ [] ∧ p.2.all isPathChar then
        some ⟨String.mk scheme, String.mk p.1, String.mk p.2⟩
      else none
    else none

def parseUri (s : String) : Option Uri := parseUriChars s.toList

/-- `<UriGenerator as Iterator>::next` (main.rs lines 34-52): format
`base_url`, seven `Alphanumeric` draws, and `extension` into one string and
parse it as a `Uri`.  The source wraps the parse in `.unwrap()` inside
`Some(...)`; `none` here models the panic of that unwrap. -/
def UriGenerator.next (g : UriGenerator) (rng : Nat → Nat) : Option Uri :=
  parseUri (g.base_url ++ randomToken rng ++ g.extension)

/-- The string rebuilt from a `Uri` in the success branch
(`format!("{}://{}{}", scheme, authority, path_and_query)`,
main.rs lines 312-317). -/
def uriFormat (u : Uri) : String :=
  u.scheme ++ "://" ++ u.authority ++ u.path_and_query

/-! ### Counters and channels (main.rs lines 220-223, 249-253) -/

/-- The four shared `Arc<AtomicUsize>` counters (main.rs lines 249-253).
`usize` increments are modelled on `Nat`: the counters only ever grow by 1
per classified probe, far from 2^64 within any modelled run. -/
structure Counters where
  request_per_second : Nat
  found_per_minute : Nat
  total_requests : Nat
  total_found : Nat
deriving DecidableEq, Repr

def Counters.init : Counters := ⟨0, 0, 0, 0⟩

/-- An `std::sync::mpsc::channel` endpoint pair: the unbounded FIFO queue of
values sent but not yet received, and whether the receiver half is still
alive.  `send` on a channel whose receiver was dropped returns `Err` and does
not enqueue; otherwise it enqueues and returns `Ok`.  Sending never blocks
(the channel is unbounded). -/
structure Chan (α : Type) where
  receiver_alive : Bool
  queue : List α
deriving DecidableEq, Repr

/-- `Sender::send`: the updated channel and the `is_err()` of the result. -/
def Chan.send {α : Type} (ch : Chan α) (x : α) : Chan α × Bool :=
  if ch.receiver_alive then ({ ch with queue := ch.queue ++ [x] }, false)
  else (ch, true)

/-- `Receiver::recv` by the consumer: pops the oldest queued value. -/
def Chan.recv {α : Type} (ch : Chan α) : Option (α × Chan α) :=
  match ch.queue with
  | [] => none
  | x :: rest => some (x, { ch with queue := rest })

/-- The four channels created in `main` (main.rs lines 220-223):
`tx`/`rx` (file export URLs), `tx_hook`/`rx_hook` (Discord webhook),
`tx_tg`/`rx_tg` (Telegram), `tx_size`/`rx_size` (content lengths). -/
structure Channels where
  tx : Chan String
  tx_hook : Chan String
  tx_tg : Chan String
  tx_size : Chan Nat
deriving DecidableEq, Repr

def Channels.init : Channels :=
  ⟨⟨true, []⟩, ⟨true, []⟩, ⟨true, []⟩, ⟨true, []⟩⟩

/-! ### HTTP response model and the classification step
(main.rs lines 304-334) -/

/-- An HTTP response as the classification step reads it: the status code and
the raw `CONTENT_LENGTH` header value if the header is present. -/
structure Response where
  status : Nat
  content_length : Option String
deriving DecidableEq, Repr

/-- `HeaderValue::to_str` (main.rs line 322): succeeds exactly when every
byte of the value is visible ASCII or space. -/
def headerToStr (s : String) : Option String :=
  if s.toList.all (fun c => 32 ≤ c.toNat && c.toNat < 127) then some s else none

/-- Decimal value of a digit string. -/
def digitsToNat (cs : List Char) : Nat :=
  cs.foldl (fun n c => n * 10 + (c.toNat - 48)) 0

/-- `str::parse::<u64>` (main.rs line 323), on decimal digit strings:
succeeds on a nonempty all-digit string whose value fits in 64 bits
(Rust reports overflow as a parse error). -/
def parseU64 (s : String) : Option Nat :=
  if s.toList ≠ [] ∧ s.toList.all Char.isDigit then
    if digitsToNat s.toList < 2 ^ 64 then some (digitsToNat s.toList) else none
  else none

/-- The declared content length the classification forwards, when the header
is present, converts with `to_str`, and parses as `u64`
(main.rs lines 321-327). -/
def declaredSize (res : Response) : Option Nat :=
  match res.content_length with
  | none => none
  | some v =>
    match headerToStr v with
    | none => none
    | some str => parseU64 str

/-- Prober-side shared state: the counters and the four sender halves. -/
structure ProbeState where
  counters : Counters
  chans : Channels
deriving DecidableEq, Repr

def ProbeState.init : ProbeState := ⟨Counters.init, Channels.init⟩

/-- The classification closure of `.and_then` (main.rs lines 304-334), run
once per response that arrives without transport error: increment the two
request counters; if the status is `StatusCode::OK` (200), increment the two
discovery counters, rebuild the URL, send the parsed content length (if any)
into `tx_size`, and send the URL into `tx`, `tx_hook` and `tx_tg`, each
send's `is_err()` result discarded. -/
def classify (s : ProbeState) (uri : Uri) (res : Response) : ProbeState :=
  let c := s.counters
  let c := { c with request_per_second := c.request_per_second + 1,
                    total_requests := c.total_requests + 1 }
  if res.status = 200 then
    let c := { c with found_per_minute := c.found_per_minute + 1,
                      total_found := c.total_found + 1 }
    let image_url := uriFormat uri
    let chans := s.chans
    let chans :=
      match declaredSize res with
      | some size => { chans with tx_size := (chans.tx_size.send size).1 }
      | none => chans
    let chans := { chans with tx := (chans.tx.send image_url).1 }
    let chans := { chans with tx_hook := (chans.tx_hook.send image_url).1 }
    let chans := { chans with tx_tg := (chans.tx_tg.send image_url).1 }
    { counters := c, chans := chans }
  else
    { counters := c, chans := s.chans }

/-! ### The probe pipeline and the outer loop (main.rs lines 274-341) -/

/-- One completion surfaced by the buffered stream: either a response paired
with its URI (`Ok`), or a `hyper::Error` transport failure (`Err`). -/
inductive ProbeItem where
  | ok (uri : Uri) (res : Response)
  | err (e : String)
deriving DecidableEq, Repr

/-- One inner pipeline run (`tokio::run(work)`, main.rs lines 293-340) over a
finite prefix of stream completions.  `Ok` items pass through the `and_then`
classification; the first `Err` item ends the `for_each` future with that
error (the remaining, still-unpolled items are dropped with the pipeline),
`map_err` prints it to stderr, and the run returns.  The returned `Option`
is the stderr line, `none` when the prefix held no error. -/
def runPipeline (s : ProbeState) : List ProbeItem → ProbeState × Option String
  | [] => (s, none)
  | .ok uri res :: rest => runPipeline (classify s uri res) rest
  | .err e :: rest =>
    let _ := rest
    (s, some e)

/-- The outer `loop` of `main` (main.rs lines 274-341): run one pipeline per
iteration; a pipeline that dies with a transport error only adds a stderr
line, and the loop builds a fresh pipeline and continues.  Returns the state
after the given iterations together with the stderr lines printed. -/
def mainLoop (s : ProbeState) : List (List ProbeItem) → ProbeState × List String
  | [] => (s, [])
  | batch :: batches =>
    let r := runPipeline s batch
    let rest := mainLoop r.1 batches
    (rest.1, (match r.2 with | some msg => [msg] | none => []) ++ rest.2)

/-! ### Reporter (`print_statistics`, main.rs lines 112-150) -/

/-- Two's-complement wrap into the `i32` range
`[-2147483648, 2147483647]`.  The `elapsed_seconds` and
`elapsed_milliseconds` locals of `print_statistics` are default-typed `i32`
(main.rs lines 118-119); in a release build an overflowing `+=` wraps this
way (in a debug build it panics, killing the reporter thread at the same
tick and likewise ending the sampling). -/
def i32wrap (z : Int) : Int :=
  (z + 2147483648) % 4294967296 - 2147483648

/-- The local state of the `print_statistics` loop (main.rs lines 118-122):
the two `i32` clocks and the two cached `usize` counter samples. -/
structure ReporterState where
  elapsed_seconds : Int
  elapsed_milliseconds : Int
  cached_found_per_seconds : Nat
  cached_found_per_minute : Nat
deriving DecidableEq, Repr

def ReporterState.init : ReporterState := ⟨0, 0, 0, 0⟩

/-- One iteration of the `print_statistics` loop after the render
(main.rs lines 135-148): when `elapsed_milliseconds % 1000 == 0`, bump
`elapsed_seconds`; on each 60th second also sample-and-reset
`found_per_minute`; then sample-and-reset `request_per_second`.  Finally
sleep 50ms and add 50 to `elapsed_milliseconds`.  The two `+=` on the `i32`
clocks wrap via `i32wrap`; Rust's truncated `%` and Lean's `%` agree on the
`== 0` tests, both meaning divisibility.  The atomic load/store pairs are
modelled as read-then-zero on the shared counters. -/
def reporterTick (r : ReporterState) (c : Counters) : ReporterState × Counters :=
  if r.elapsed_milliseconds % 1000 = 0 then
    let es := i32wrap (r.elapsed_seconds + 1)
    let p :=
      if es % 60 = 0 then (c.found_per_minute, { c with found_per_minute := 0 })
      else (r.cached_found_per_minute, c)
    let c1 := p.2
    let cfs := c1.request_per_second
    let c2 := { c1 with request_per_second := 0 }
    (⟨es, i32wrap (r.elapsed_milliseconds + 50), cfs, p.1⟩, c2)
  else
    ({ r with elapsed_milliseconds := i32wrap (r.elapsed_milliseconds + 50) }, c)

/-- Progress counters of the `buffer_unordered(n_concurrent)` combinator
applied to the mapped request stream (main.rs lines 293-303): `issued` HEAD
requests have been started, `classified` of them have completed and been
handed to the downstream `and_then`.  A probe is outstanding when issued but
not yet classified. -/
structure BufferState where
  issued : Nat
  classified : Nat
deriving DecidableEq, Repr

/-- The number of outstanding (issued, not yet classified) probes. -/
def BufferState.outstanding (b : BufferState) : Nat := b.issued - b.classified

/-- The semantics of `buffer_unordered(K)`: it polls the underlying stream
for a new item — issuing a fresh request future — only while fewer than `K`
futures are in flight, and it yields each completed future downstream. -/
inductive BufferStep (K : Nat) : BufferState → BufferState → Prop
  | issue (b : BufferState) : b.outstanding < K →
      BufferStep K b ⟨b.issued + 1, b.classified⟩
  | complete (b : BufferState) : b.classified < b.issued →
      BufferStep K b ⟨b.issued, b.classified + 1⟩

/-- Buffer states reachable from the start of a pipeline (nothing issued). -/
inductive BufferReachable (K : Nat) : BufferState → Prop
  | init : BufferReachable K ⟨0, 0⟩
  | step {b b' : BufferState} : BufferReachable K b → BufferStep K b b' →
      BufferReachable K b'

/-- `str::parse::<usize>` on a 64-bit target, on decimal digit strings. -/
def parseUsize (s : String) : Option Nat :=
  if s.toList ≠ [] ∧ s.toList.all Char.isDigit then
    if digitsToNat s.toList < 2 ^ 64 then some (digitsToNat s.toList) else none
  else none

/-- The `--concurrent` flag (main.rs lines 155-162, 217): clap substitutes
the default value `"4"` when the flag is absent, and `main` parses the value
with `.parse().unwrap()`. -/
def n_concurrent (arg : Option String) : Option Nat :=
  parseUsize (arg.getD "4")

/-! ### Sink wiring in `main` (main.rs lines 225-247) -/

/-- The command-line options `main` inspects when wiring the sinks. -/
structure Config where
  webhook_id : Option String
  webhook_token : Option String
  tg_channel : Option String
  tg_token : Option String
  export_file : Option String
  report_size : Bool
deriving DecidableEq, Repr

/-- `main` spawns the Discord webhook worker iff both `webhook_id` and
`webhook_token` are present (main.rs lines 225-230); `rx_hook` moves into
that worker. -/
def spawnsWebhook (m : Config) : Bool :=
  m.webhook_id.isSome && m.webhook_token.isSome

/-- `main` spawns the file-export worker iff `export_file` is present
(main.rs lines 232-240); `rx` moves into that worker. -/
def spawnsFile (m : Config) : Bool := m.export_file.isSome

/-- `main` spawns the Telegram worker iff both `tg_channel` and `tg_token`
are present (main.rs lines 242-247); `rx_tg` moves into that worker. -/
def spawnsTelegram (m : Config) : Bool :=
  m.tg_channel.isSome && m.tg_token.isSome

/-- `rx_size` moves into the file-export worker iff the export file is
configured and `report_size` is set (main.rs lines 235-239); otherwise it
stays bound in `main`. -/
def movesSizeReceiver (m : Config) : Bool :=
  m.export_file.isSome && m.report_size

/-! ### File-export sink (`stream_to_file`, main.rs lines 90-110) -/

/-- The sized loop of `stream_to_file` (main.rs lines 97-103): for each URL
received on `rx`, `try_recv` one value from `rx_size`; when a size is
available write `"<url> <size>\n"`, otherwise write nothing for that URL.
`sizes` is the queue of sizes available on `rx_size` as the URLs are
processed.  Returns the lines written, in order. -/
def streamToFileSized : List String → List Nat → List String
  | [], _ => []
  | _ :: urls, [] => streamToFileSized urls []
  | url :: urls, size :: sizes =>
    (url ++ " " ++ toString size ++ "\n") :: streamToFileSized urls sizes

/-- `stream_to_file` (main.rs lines 90-110) as the lines it appends to the
export file, given the URLs received on `rx` and, in sized mode, the sizes
available on `rx_size`.  In plain mode (no `rx_size`) every URL yields the
line `"<url>\n"` (main.rs lines 104-109). -/
def stream_to_file (urls : List String) (rx_size : Option (List Nat)) :
    List String :=
  match rx_size with
  | some sizes => streamToFileSized urls sizes
  | none => urls.map (fun u => u ++ "\n")

/-! ### Whole-process run model

`main` spawns each enabled sink worker and the reporter with
`thread::spawn` and then loops forever (main.rs lines 225-270, 274-341).
The repo has no Cargo profile, so Rust's default `panic = "unwind"`
applies: a panic in a spawned thread (such as the `.unwrap()` of a failed
`write_all`) unwinds and terminates that thread only; the main thread and
every other thread keep running, and the dead thread's channel receivers
are dropped.  A receiver that was never moved out of `main` stays alive for
the entire run because `main` never returns. -/

structure RunState where
  probe : ProbeState
  reporter : ReporterState
  file_sink_alive : Bool
  file_lines : List String
deriving DecidableEq, Repr

/-- Initial run state: `file_sink_alive` is true exactly when `main`
spawned the file-export worker. -/
def RunState.init (cfg : Config) : RunState :=
  ⟨ProbeState.init, ReporterState.init, spawnsFile cfg, []⟩

/-- State after the file-export thread panics on a failed `write_all`
(main.rs lines 100-101, 106-107): the thread dies, dropping the receivers
it owns (`rx`, and `rx_size` when it was moved in), so later sends on those
channels fail; nothing else in the process changes. -/
def fileSinkPanic (cfg : Config) (st : RunState) : RunState :=
  { st with
    file_sink_alive := false,
    probe := { st.probe with chans :=
      { st.probe.chans with
        tx := { st.probe.chans.tx with receiver_alive := false },
        tx_size :=
          if movesSizeReceiver cfg then
            { st.probe.chans.tx_size with receiver_alive := false }
          else st.probe.chans.tx_size } } }

/-- Interleaved steps of the running process, for a fixed command-line
configuration `cfg`.  `ok` on the write steps models whether the
`write_all` call succeeds; a failed write panics the file-export thread
(`.unwrap()`), killing that thread alone. -/
inductive RunStep (cfg : Config) : RunState → RunState → Prop
  /-- The prober classifies one completed response (main.rs lines 304-334). -/
  | probe (st : RunState) (uri : Uri) (res : Response) :
      RunStep cfg st { st with probe := classify st.probe uri res }
  /-- One reporter loop iteration (main.rs lines 123-149). -/
  | report (st : RunState) :
      RunStep cfg st
        { st with
          reporter := (reporterTick st.reporter st.probe.counters).1,
          probe := { st.probe with
            counters := (reporterTick st.reporter st.probe.counters).2 } }
  /-- The plain-mode file worker receives one URL and writes
  `"<url>\n"` (main.rs lines 104-109); `ok = false` is a failed write. -/
  | fileWritePlain (st : RunState) (url : String) (ch' : Chan String)
      (ok : Bool) :
      spawnsFile cfg = true → movesSizeReceiver cfg = false →
      st.file_sink_alive = true →
      st.probe.chans.tx.recv = some (url, ch') →
      RunStep cfg st
        (if ok then
          { st with
            probe := { st.probe with chans := { st.probe.chans with tx := ch' } },
            file_lines := st.file_lines ++ [url ++ "\n"] }
        else
          fileSinkPanic cfg
            { st with
              probe := { st.probe with chans := { st.probe.chans with tx := ch' } } })
  /-- The sized-mode file worker receives one URL, a size was available on
  `rx_size`, and it writes `"<url> <size>\n"` (main.rs lines 98-102). -/
  | fileWriteSized (st : RunState) (url : String) (ch' : Chan String)
      (size : Nat) (szch' : Chan Nat) (ok : Bool) :
      movesSizeReceiver cfg = true →
      st.file_sink_alive = true →
      st.probe.chans.tx.recv = some (url, ch') →
      st.probe.chans.tx_size.recv = some (size, szch') →
      RunStep cfg st
        (if ok then
          { st with
            probe := { st.probe with chans :=
              { st.probe.chans with tx := ch', tx_size := szch' } },
            file_lines := st.file_lines ++ [url ++ " " ++ toString size ++ "\n"] }
        else
          fileSinkPanic cfg
            { st with
              probe := { st.probe with chans :=
                { st.probe.chans with tx := ch', tx_size := szch' } } })
  /-- The sized-mode file worker receives one URL but `try_recv` on
  `rx_size` fails; no line is written (main.rs line 99's `if let` falls
  through). -/
  | fileSkipSized (st : RunState) (url : String) (ch' : Chan String) :
      movesSizeReceiver cfg = true →
      st.file_sink_alive = true →
      st.probe.chans.tx.recv = some (url, ch') →
      st.probe.chans.tx_size.queue = [] →
      RunStep cfg st
        { st with probe := { st.probe with chans := { st.probe.chans with tx := ch' } } }
  /-- The Discord webhook worker consumes one URL (main.rs lines 84-87);
  delivery is external and its result is discarded. -/
  | hookRecv (st : RunState) (url : String) (ch' : Chan String) :
      spawnsWebhook cfg = true →
      st.probe.chans.tx_hook.recv = some (url, ch') →
      RunStep cfg st
        { st with probe := { st.probe with chans := { st.probe.chans with tx_hook := ch' } } }
  /-- The Telegram worker consumes one URL (main.rs lines 60-75);
  delivery is external and its result is discarded. -/
  | tgRecv (st : RunState) (url : String) (ch' : Chan String) :
      spawnsTelegram cfg = true →
      st.probe.chans.tx_tg.recv = some (url, ch') →
      RunStep cfg st
        { st with probe := { st.probe with chans := { st.probe.chans with tx_tg := ch' } } }

/-- Run states reachable from process start under configuration `cfg`. -/
inductive RunReachable (cfg : Config) : RunState → Prop
  | init : RunReachable cfg (RunState.init cfg)
  | step {st st' : RunState} : RunReachable cfg st → RunStep cfg st st' →
      RunReachable cfg st'

/-! ### Helper lemmas -/

/-- Effect of one classification on the four counters. -/
theorem classify_counters (s : ProbeState) (uri : Uri) (res : Response) :
    (classify s uri res).counters =
      { request_per_second := s.counters.request_per_second + 1,
        found_per_minute :=
          s.counters.found_per_minute + (if res.status = 200 then 1 else 0),
        total_requests := s.counters.total_requests + 1,
        total_found :=
          s.counters.total_found + (if res.status = 200 then 1 else 0) } := by
  by_cases h : res.status = 200 <;> simp [classify, h]

/-- Effect of one successful classification on the four channels. -/
theorem classify_chans_success (s : ProbeState) (uri : Uri) (res : Response)
    (h : res.status = 200) :
    (classify s uri res).chans.tx = (s.chans.tx.send (uriFormat uri)).1 ∧
    (classify s uri res).chans.tx_hook = (s.chans.tx_hook.send (uriFormat uri)).1 ∧
    (classify s uri res).chans.tx_tg = (s.chans.tx_tg.send (uriFormat uri)).1 ∧
    (classify s uri res).chans.tx_size =
      (match declaredSize res with
        | some size => (s.chans.tx_size.send size).1
        | none => s.chans.tx_size) := by
  cases hd : declaredSize res <;> simp [classify, h, hd]

/-- A failed classification leaves the channels untouched. -/
theorem classify_chans_failure (s : ProbeState) (uri : Uri) (res : Response)
    (h : ¬ res.status = 200) :
    (classify s uri res).chans = s.chans := by
  simp [classify, h]

/-- `reporterTick` only ever copies or zeroes the windowed counters and
never touches the lifetime totals. -/
theorem reporterTick_counters (r : ReporterState) (c : Counters) :
    ((reporterTick r c).2.request_per_second = c.request_per_second ∨
      (reporterTick r c).2.request_per_second = 0) ∧
    ((reporterTick r c).2.found_per_minute = c.found_per_minute ∨
      (reporterTick r c).2.found_per_minute = 0) ∧
    (reporterTick r c).2.total_requests = c.total_requests ∧
    (reporterTick r c).2.total_found = c.total_found := by
  by_cases h : r.elapsed_milliseconds % 1000 = 0 <;>
    by_cases h2 : i32wrap (r.elapsed_seconds + 1) % 60 = 0 <;>
      simp [reporterTick, h, h2]

/-- `fileSinkPanic` does not change the counters. -/
theorem fileSinkPanic_counters (cfg : Config) (st : RunState) :
    (fileSinkPanic cfg st).probe.counters = st.probe.counters := by
  simp [fileSinkPanic]

/-! ### Claim C1 -/

/-- C1: at every instant, the number of outstanding probe requests (issued
but not yet classified) never exceeds the concurrency bound `K` of
`buffer_unordered` — in every reachable buffer state `classified ≤ issued`
and `outstanding ≤ K` — and the configured bound defaults to 4 (the clap
default `"4"` parsed by `main`). -/
theorem C1_bounded_outstanding :
    (∀ (K : Nat) (b : BufferState), BufferReachable K b →
        b.classified ≤ b.issued ∧ b.outstanding ≤ K) ∧
    n_concurrent none = some 4 := by
  constructor
  · intro K b h
    induction h with
    | init => simp [BufferState.outstanding]
    | step hr hs ih =>
      obtain ⟨h1, h2⟩ := ih
      cases hs with
      | issue hlt =>
        simp only [BufferState.outstanding] at *
        omega
      | complete hlt =>
        simp only [BufferState.outstanding] at *
        omega
  · rfl

/-- Witness for C1 at `K = 4` after issuing one probe. -/
theorem C1_bounded_outstanding_witness :
    BufferState.outstanding ⟨1, 0⟩ ≤ 4 :=
  (C1_bounded_outstanding.1 4 ⟨1, 0⟩
    (BufferReachable.step BufferReachable.init
      (BufferStep.issue ⟨0, 0⟩ (by decide)))).2

/-! ### Claim C4 -/

/-- C4: every classified outcome increments `total_requests` and
`request_per_second` by exactly 1 and increments `total_found` and
`found_per_minute` by exactly 1 iff it is a success; under every process
step the two lifetime totals never decrease; and the reporter is the only
actor that resets the windowed counters — its tick either leaves each
windowed counter unchanged or zeroes it, and it never touches the lifetime
totals (the prober side only ever adds, by the first conjunct). -/
theorem C4_counter_accounting :
    (∀ (s : ProbeState) (uri : Uri) (res : Response),
        (classify s uri res).counters.total_requests
          = s.counters.total_requests + 1 ∧
        (classify s uri res).counters.request_per_second
          = s.counters.request_per_second + 1 ∧
        (classify s uri res).counters.total_found
          = s.counters.total_found + (if res.status = 200 then 1 else 0) ∧
        (classify s uri res).counters.found_per_minute
          = s.counters.found_per_minute + (if res.status = 200 then 1 else 0)) ∧
    (∀ (cfg : Config) (st st' : RunState), RunStep cfg st st' →
        st.probe.counters.total_requests ≤ st'.probe.counters.total_requests ∧
        st.probe.counters.total_found ≤ st'.probe.counters.total_found) ∧
    (∀ (r : ReporterState) (c : Counters),
        ((reporterTick r c).2.request_per_second = c.request_per_second ∨
          (reporterTick r c).2.request_per_second = 0) ∧
        ((reporterTick r c).2.found_per_minute = c.found_per_minute ∨
          (reporterTick r c).2.found_per_minute = 0) ∧
        (reporterTick r c).2.total_requests = c.total_requests ∧
        (reporterTick r c).2.total_found = c.total_found) := by
  refine ⟨?_, ?_, ?_⟩
  · intro s uri res
    simp [classify_counters]
  · intro cfg st st' h
    cases h with
    | probe uri res => simp [classify_counters]
    | report =>
      have h := reporterTick_counters st.reporter st.probe.counters
      simp [h.2.2.1, h.2.2.2]
    | fileWritePlain url ch' ok h1 h2 h3 h4 =>
      cases ok <;> simp [fileSinkPanic_counters]
    | fileWriteSized url ch' size szch' ok h1 h2 h3 h4 =>
      cases ok <;> simp [fileSinkPanic_counters]
    | fileSkipSized url ch' h1 h2 h3 h4 => simp
    | hookRecv url ch' h1 h2 => simp
    | tgRecv url ch' h1 h2 => simp
  · exact reporterTick_counters

/-- Witness for C4 on a concrete reporter step. -/
theorem C4_counter_accounting_witness :
    (RunState.init ⟨none, none, none, none, none, false⟩).probe.counters.total_requests
      ≤ ((RunState.init ⟨none, none, none, none, none, false⟩).probe.counters.total_requests + 1) ∧
    (RunState.init ⟨none, none, none, none, none, false⟩).probe.counters.total_found
      ≤ ((RunState.init ⟨none, none, none, none, none, false⟩).probe.counters.total_found + 1) := by
  have h := (C4_counter_accounting.2.1 ⟨none, none, none, none, none, false⟩
    (RunState.init ⟨none, none, none, none, none, false⟩)
    _ (RunStep.probe _ ⟨"https", "i.imgur.com", "/aaaaaaa.png"⟩ ⟨200, none⟩))
  simp [RunState.init, ProbeState.init, Counters.init, classify_counters] at h
  simp [RunState.init, ProbeState.init, Counters.init]

/-! ### Claim C2 -/

/-- C2 counterexample: a probe that fails with a transport error is NOT
counted as a request — after a pipeline sees a connection error, both
request counters are still 0 — and the next candidate in that pipeline is
not processed either (its classification would have set
`total_requests = 1`): the error ends the inner pipeline. -/
theorem C2_counterexample :
    (runPipeline ProbeState.init
        [ProbeItem.err "connection refused",
         ProbeItem.ok ⟨"https", "i.imgur.com", "/aaaaaaa.png"⟩ ⟨200, none⟩]).1.counters.total_requests = 0 ∧
    (runPipeline ProbeState.init
        [ProbeItem.err "connection refused",
         ProbeItem.ok ⟨"https", "i.imgur.com", "/aaaaaaa.png"⟩ ⟨200, none⟩]).1.counters.request_per_second = 0 ∧
    (runPipeline ProbeState.init
        [ProbeItem.err "connection refused",
         ProbeItem.ok ⟨"https", "i.imgur.com", "/aaaaaaa.png"⟩ ⟨200, none⟩]).2
      = some "connection refused" := by
  refine ⟨rfl, rfl, rfl⟩

/-- C2 (amended): a transport error is not counted and not a discovery: it
leaves counters and channels exactly as they were, its message becomes the
pipeline's stderr line, the remaining work of that pipeline is dropped, and
the outer loop is never fatal: it restarts with a fresh pipeline from the
same shared state, and later batches still run. -/
theorem C2_transport_error_not_counted (s : ProbeState) (e : String)
    (rest : List ProbeItem) (batches : List (List ProbeItem)) :
    runPipeline s (ProbeItem.err e :: rest) = (s, some e) ∧
    mainLoop s ((ProbeItem.err e :: rest) :: batches)
      = ((mainLoop s batches).1, e :: (mainLoop s batches).2) := by
  constructor
  · rfl
  · simp [mainLoop, runPipeline]

/-! ### Claim C3 -/

/-- C3 counterexample: status 204 is in the 2xx class, yet the code does not
classify it as a success — no discovery is counted and nothing is forwarded
(the code tests `res.status() == StatusCode::OK`, i.e. 200 exactly). -/
theorem C3_counterexample :
    (200 ≤ 204 ∧ 204 < 300) ∧
    (classify ProbeState.init ⟨"https", "i.imgur.com", "/aaaaaaa.png"⟩
        ⟨204, none⟩).counters.total_found = 0 ∧
    (classify ProbeState.init ⟨"https", "i.imgur.com", "/aaaaaaa.png"⟩
        ⟨204, none⟩).chans = Channels.init := by
  refine ⟨⟨by norm_num, by norm_num⟩, ?_, ?_⟩
  · simp [classify_counters, ProbeState.init, Counters.init]
  · exact classify_chans_failure _ _ _ (by norm_num)

/-- C3 (amended): a completed probe is classified as a success — discovery
counters incremented and the locator forwarded to the sink channels — if
and only if the HTTP status code is exactly 200 (`StatusCode::OK`), not any
other 2xx-class code. -/
theorem C3_success_iff_status_200 (s : ProbeState) (uri : Uri) (res : Response) :
    ((classify s uri res).counters.total_found = s.counters.total_found + 1 ∧
     (classify s uri res).counters.found_per_minute = s.counters.found_per_minute + 1 ∧
     (classify s uri res).chans.tx = (s.chans.tx.send (uriFormat uri)).1 ∧
     (classify s uri res).chans.tx_hook = (s.chans.tx_hook.send (uriFormat uri)).1 ∧
     (classify s uri res).chans.tx_tg = (s.chans.tx_tg.send (uriFormat uri)).1)
    ↔ res.status = 200 := by
  by_cases h : res.status = 200
  · have hc := classify_chans_success s uri res h
    simp [h, classify_counters, hc.1, hc.2.1, hc.2.2.1]
  · simp [h, classify_counters]

/-- Witness for C3: the amended equivalence applied at a 200 response. -/
theorem C3_success_iff_status_200_witness :
    (classify ProbeState.init ⟨"https", "i.imgur.com", "/aaaaaaa.png"⟩
        ⟨200, none⟩).counters.total_found = Counters.init.total_found + 1 :=
  ((C3_success_iff_status_200 ProbeState.init
      ⟨"https", "i.imgur.com", "/aaaaaaa.png"⟩ ⟨200, none⟩).mpr rfl).1

/-! ### Claim C5 -/

/-- Sized mode writes nothing once the size queue is exhausted. -/
theorem streamToFileSized_nil (urls : List String) :
    streamToFileSized urls [] = [] := by
  induction urls with
  | nil => rfl
  | cons u us ih => simp [streamToFileSized, ih]

/-- Sized mode pairs URLs with sizes positionally, zip-style. -/
theorem streamToFileSized_eq_zipWith (urls : List String) (szs : List Nat) :
    streamToFileSized urls szs
      = List.zipWith (fun u sz => u ++ " " ++ toString sz ++ "\n") urls szs := by
  induction urls generalizing szs with
  | nil => simp [streamToFileSized]
  | cons u us ih =>
    cases szs with
    | nil => simp [streamToFileSized_nil]
    | cons sz szs => simp [streamToFileSized, ih]

/-- C5 counterexample: with size-reporting on, a discovery whose size is not
yet available on the size queue produces NO line at all — not the claimed
"exactly one line per discovery". -/
theorem C5_counterexample :
    stream_to_file ["https://i.imgur.com/aaaaaaa.png"] (some []) = [] := rfl

/-- C5 (amended): with size-reporting off, exactly one line `<locator>\n`
per discovery; with size-reporting on, a line `<locator> <size>\n` is
written only for discoveries that find a size queued at receive time — the
written lines are the positional zip of the URL queue with the size queue,
and a discovery without an available size is dropped without a line. -/
theorem C5_export_file_lines (urls : List String) (szs : List Nat) :
    stream_to_file urls none = urls.map (fun u => u ++ "\n") ∧
    stream_to_file urls (some szs)
      = List.zipWith (fun u sz => u ++ " " ++ toString sz ++ "\n") urls szs := by
  exact ⟨rfl, streamToFileSized_eq_zipWith urls szs⟩

/-! ### Claim C6 -/

/-- C6 counterexample: a failed export-file write does not stop the whole
process.  From a state where the file worker holds one queued URL, the
failed `write_all(...).unwrap()` panics the file-export thread
(`file_sink_alive = false`) — and the process goes right on: a probe
classification step still fires afterwards and brings `total_requests`
to 1.  The claim says the whole process stops; the code only loses the
sink's own thread. -/
theorem C6_counterexample :
    (RunStep ⟨none, none, none, none, some "found.txt", false⟩
      ⟨⟨Counters.init, ⟨⟨true, ["u"]⟩, ⟨true, []⟩, ⟨true, []⟩, ⟨true, []⟩⟩⟩,
        ReporterState.init, true, []⟩
      ⟨⟨Counters.init, ⟨⟨false, []⟩, ⟨true, []⟩, ⟨true, []⟩, ⟨true, []⟩⟩⟩,
        ReporterState.init, false, []⟩) ∧
    (RunStep ⟨none, none, none, none, some "found.txt", false⟩
      ⟨⟨Counters.init, ⟨⟨false, []⟩, ⟨true, []⟩, ⟨true, []⟩, ⟨true, []⟩⟩⟩,
        ReporterState.init, false, []⟩
      ⟨classify ⟨Counters.init, ⟨⟨false, []⟩, ⟨true, []⟩, ⟨true, []⟩, ⟨true, []⟩⟩⟩
          ⟨"https", "i.imgur.com", "/aaaaaaa.png"⟩ ⟨404, none⟩,
        ReporterState.init, false, []⟩) ∧
    (classify ⟨Counters.init, ⟨⟨false, []⟩, ⟨true, []⟩, ⟨true, []⟩, ⟨true, []⟩⟩⟩
        ⟨"https", "i.imgur.com", "/aaaaaaa.png"⟩
        ⟨404, none⟩).counters.total_requests = 1 := by
  refine ⟨?_, ?_, ?_⟩
  · exact RunStep.fileWritePlain _ "u" ⟨true, []⟩ false rfl rfl rfl rfl
  · exact RunStep.probe _ _ _
  · simp [classify_counters, Counters.init]

/-- C6 (amended): a failed export-file write is fatal only to the
file-export sink's own code path: the panic of the `.unwrap()` kills the
file-export thread and drops its receivers, while counters, reporter state,
the export file contents and the other sinks' channels are untouched;
probing steps remain enabled in every state, and once the file sink is dead
no line is ever appended to the export file again. -/
theorem C6_write_failure_kills_sink_thread_only :
    (∀ (cfg : Config) (st : RunState),
        (fileSinkPanic cfg st).file_sink_alive = false ∧
        (fileSinkPanic cfg st).probe.counters = st.probe.counters ∧
        (fileSinkPanic cfg st).reporter = st.reporter ∧
        (fileSinkPanic cfg st).file_lines = st.file_lines ∧
        (fileSinkPanic cfg st).probe.chans.tx_hook = st.probe.chans.tx_hook ∧
        (fileSinkPanic cfg st).probe.chans.tx_tg = st.probe.chans.tx_tg) ∧
    (∀ (cfg : Config) (st : RunState) (uri : Uri) (res : Response),
        RunStep cfg st { st with probe := classify st.probe uri res }) ∧
    (∀ (cfg : Config) (st st' : RunState), RunStep cfg st st' →
        st.file_sink_alive = false → st'.file_lines = st.file_lines) := by
  refine ⟨?_, ?_, ?_⟩
  · intro cfg st
    simp [fileSinkPanic]
  · intro cfg st uri res
    exact RunStep.probe st uri res
  · intro cfg st st' h hdead
    cases h with
    | probe uri res => rfl
    | report => rfl
    | fileWritePlain url ch' ok h1 h2 h3 h4 => rw [h3] at hdead; cases hdead
    | fileWriteSized url ch' size szch' ok h1 h2 h3 h4 => rw [h2] at hdead; cases hdead
    | fileSkipSized url ch' h1 h2 h3 h4 => rfl
    | hookRecv url ch' h1 h2 => rfl
    | tgRecv url ch' h1 h2 => rfl

/-- Witness for C6: the dead-sink conjunct applied to a concrete probe step
from a state whose file sink has panicked. -/
theorem C6_write_failure_kills_sink_thread_only_witness :
    (⟨classify ProbeState.init ⟨"https", "i.imgur.com", "/aaaaaaa.png"⟩ ⟨404, none⟩,
        ReporterState.init, false, ["old\n"]⟩ : RunState).file_lines
      = (⟨ProbeState.init, ReporterState.init, false, ["old\n"]⟩ : RunState).file_lines :=
  C6_write_failure_kills_sink_thread_only.2.2
    ⟨none, none, none, none, some "found.txt", false⟩
    ⟨ProbeState.init, ReporterState.init, false, ["old\n"]⟩ _
    (RunStep.probe _ ⟨"https", "i.imgur.com", "/aaaaaaa.png"⟩ ⟨404, none⟩) rfl

/-! ### Claim C7 -/

/-- C7: on every successful probe the dispatcher performs exactly one
`send` on each sink channel (each channel's new state is exactly one `send`
of the rebuilt URL applied to its old state, so the result for each sink
depends only on that sink's own channel — a failure or stall of one sink
never affects another, and `classify` is a total function that never
blocks); a send onto a live channel appends exactly that one message, and a
send onto a channel whose consumer is gone fails, enqueues nothing, and the
error is discarded (`is_err()` with the result unused). -/
theorem C7_dispatch_exactly_once_best_effort (s : ProbeState) (uri : Uri)
    (res : Response) (h : res.status = 200) :
    ((classify s uri res).chans.tx = (s.chans.tx.send (uriFormat uri)).1 ∧
     (classify s uri res).chans.tx_hook = (s.chans.tx_hook.send (uriFormat uri)).1 ∧
     (classify s uri res).chans.tx_tg = (s.chans.tx_tg.send (uriFormat uri)).1) ∧
    (∀ ch : Chan String, ch.receiver_alive = true →
        (ch.send (uriFormat uri)).1.queue = ch.queue ++ [uriFormat uri]) ∧
    (∀ ch : Chan String, ch.receiver_alive = false →
        (ch.send (uriFormat uri)).1 = ch ∧ (ch.send (uriFormat uri)).2 = true) := by
  have hc := classify_chans_success s uri res h
  refine ⟨⟨hc.1, hc.2.1, hc.2.2.1⟩, ?_, ?_⟩
  · intro ch hch
    simp [Chan.send, hch]
  · intro ch hch
    simp [Chan.send, hch]

/-- Witness for C7 at a concrete success with one dead sink. -/
theorem C7_dispatch_exactly_once_best_effort_witness :
    (Chan.send (⟨false, []⟩ : Chan String)
        (uriFormat ⟨"https", "i.imgur.com", "/aaaaaaa.png"⟩)).2 = true :=
  ((C7_dispatch_exactly_once_best_effort ProbeState.init
      ⟨"https", "i.imgur.com", "/aaaaaaa.png"⟩ ⟨200, none⟩ rfl).2.2
    ⟨false, []⟩ rfl).2

/-! ### Claim C8 -/

/-- Every `Alphanumeric` sample lies in the declared 62-character alphabet. -/
theorem sampleAlphanumeric_mem (r : Nat) :
    sampleAlphanumeric r ∈ alphanumericChars := by
  unfold sampleAlphanumeric
  rw [List.getD_eq_getElem?_getD]
  have hlen : r % 62 < alphanumericChars.length := by
    have : r % 62 < 62 := Nat.mod_lt _ (by norm_num)
    simpa [alphanumericChars] using this
  rw [List.getElem?_eq_getElem hlen]
  simp [List.getElem_mem]

/-- Every character of the alphabet is alphanumeric. -/
theorem alphanumericChars_isAlphanum :
    ∀ c ∈ alphanumericChars, c.isAlphanum = true := by decide

/-- The token is exactly the seven samples. -/
theorem randomToken_toList (rng : Nat → Nat) :
    (randomToken rng).toList
      = (List.range 7).map (fun i => sampleAlphanumeric (rng i)) := rfl

/-- The random token always has length 7. -/
theorem randomToken_length (rng : Nat → Nat) : (randomToken rng).length = 7 := by
  have h : (randomToken rng).length
      = ((List.range 7).map (fun i => sampleAlphanumeric (rng i))).length := rfl
  rw [h]
  simp

/-- Every character of the random token lies in the alphabet. -/
theorem randomToken_mem (rng : Nat → Nat) :
    ∀ c ∈ (randomToken rng).toList, c ∈ alphanumericChars := by
  rw [randomToken_toList]
  intro c hc
  obtain ⟨i, _, rfl⟩ := List.mem_map.mp hc
  exact sampleAlphanumeric_mem (rng i)

/-- Parsing `BASE_URL ++ token ++ ".png"` succeeds for every alphanumeric
token, yielding scheme `https`, authority `i.imgur.com` and path
`/token.png`. -/
theorem parseUriChars_base_token (tok : List Char)
    (h : ∀ c ∈ tok, c.isAlphanum = true) :
    parseUriChars (['h','t','t','p','s',':','/','/'] ++
        (['i','.','i','m','g','u','r','.','c','o','m','/'] ++ (tok ++ ['.','p','n','g'])))
      = some ⟨"https", "i.imgur.com", String.mk ('/' :: (tok ++ ['.','p','n','g']))⟩ := by
  have htok : tok.all isPathChar = true := by
    rw [List.all_eq_true]
    intro c hc
    simp [isPathChar, h c hc]
  have hsplit : splitScheme (['h','t','t','p','s',':','/','/'] ++
      (['i','.','i','m','g','u','r','.','c','o','m','/'] ++ (tok ++ ['.','p','n','g'])))
      = some (['h','t','t','p','s'],
          ['i','.','i','m','g','u','r','.','c','o','m','/'] ++ (tok ++ ['.','p','n','g'])) := by
    simp [splitScheme]
  have hslash : splitAtSlash
      (['i','.','i','m','g','u','r','.','c','o','m','/'] ++ (tok ++ ['.','p','n','g']))
      = (['i','.','i','m','g','u','r','.','c','o','m'], '/' :: (tok ++ ['.','p','n','g'])) := by
    simp [splitAtSlash]
  unfold parseUriChars
  rw [hsplit]
  simp only [hslash]
  simp [isSchemeChar, isAuthorityChar, isPathChar, htok, List.all_append]

/-- C9: for every state of the thread-local RNG, `next()` on the generator
built from the fixed `BASE_URL` and `.png` extension returns `some`
candidate; the candidate's rebuilt string is exactly the fixed base address
followed by the random token followed by the fixed extension; the token has
exactly 7 characters, all drawn from the alphanumeric alphabet — so the
parse inside `next()` never fails for the well-formed fixed base. -/
theorem C9_generator_next (rng : Nat → Nat) :
    (UriGenerator.new BASE_URL ".png").next rng
      = some ⟨"https", "i.imgur.com",
          String.mk ('/' :: ((randomToken rng).toList ++ ['.','p','n','g']))⟩ ∧
    uriFormat (⟨"https", "i.imgur.com",
        String.mk ('/' :: ((randomToken rng).toList ++ ['.','p','n','g']))⟩ : Uri)
      = BASE_URL ++ randomToken rng ++ ".png" ∧
    (randomToken rng).length = 7 ∧
    (∀ c ∈ (randomToken rng).toList, c ∈ alphanumericChars) := by
  refine ⟨?_, ?_, randomToken_length rng, randomToken_mem rng⟩
  · show parseUri (BASE_URL ++ randomToken rng ++ ".png") = _
    have hlist : (BASE_URL ++ randomToken rng ++ ".png").toList
        = ['h','t','t','p','s',':','/','/'] ++
          (['i','.','i','m','g','u','r','.','c','o','m','/'] ++
            ((randomToken rng).toList ++ ['.','p','n','g'])) := by
      simp [BASE_URL, String.toList]
    unfold parseUri
    rw [hlist]
    exact parseUriChars_base_token _
      (fun c hc => alphanumericChars_isAlphanum c (randomToken_mem rng c hc))
  · show "https" ++ "://" ++ "i.imgur.com" ++ _ = _
    apply String.ext
    simp [BASE_URL, String.data_append]

/-- Witness for C9 at a constant RNG stream. -/
theorem C9_generator_next_witness :
    (UriGenerator.new BASE_URL ".png").next (fun _ => 0)
      = some ⟨"https", "i.imgur.com",
          String.mk ('/' :: (((randomToken (fun _ => 0)).toList) ++ ['.','p','n','g']))⟩ ∧
    'A' ∈ alphanumericChars :=
  ⟨(C9_generator_next (fun _ => 0)).1,
    (C9_generator_next (fun _ => 0)).2.2.2 'A' (by decide)⟩

/-! ### Claim C10 -/

/-- `send` never changes which half of the channel is alive. -/
theorem Chan.send_alive {α : Type} (ch : Chan α) (x : α) :
    (ch.send x).1.receiver_alive = ch.receiver_alive := by
  by_cases h : ch.receiver_alive <;> simp [Chan.send, h]

/-- `send` appends exactly one message when the receiver is alive and
nothing otherwise. -/
theorem Chan.send_queue {α : Type} (ch : Chan α) (x : α) :
    (ch.send x).1.queue
      = ch.queue ++ (if ch.receiver_alive then [x] else []) := by
  by_cases h : ch.receiver_alive <;> simp [Chan.send, h]

/-- Receiving preserves the liveness flag. -/
theorem Chan.recv_alive {α : Type} {ch ch' : Chan α} {x : α}
    (h : ch.recv = some (x, ch')) :
    ch'.receiver_alive = ch.receiver_alive := by
  unfold Chan.recv at h
  cases hq : ch.queue with
  | nil => rw [hq] at h; cases h
  | cons y rest => rw [hq] at h; cases h; rfl

/-- Classification preserves every channel's liveness flag. -/
theorem classify_alive (s : ProbeState) (uri : Uri) (res : Response) :
    (classify s uri res).chans.tx.receiver_alive = s.chans.tx.receiver_alive ∧
    (classify s uri res).chans.tx_hook.receiver_alive = s.chans.tx_hook.receiver_alive ∧
    (classify s uri res).chans.tx_tg.receiver_alive = s.chans.tx_tg.receiver_alive ∧
    (classify s uri res).chans.tx_size.receiver_alive = s.chans.tx_size.receiver_alive := by
  by_cases h : res.status = 200
  · have hc := classify_chans_success s uri res h
    rw [hc.1, hc.2.1, hc.2.2.1, hc.2.2.2]
    refine ⟨Chan.send_alive _ _, Chan.send_alive _ _, Chan.send_alive _ _, ?_⟩
    cases declaredSize res <;> simp [Chan.send_alive]
  · rw [classify_chans_failure s uri res h]
    exact ⟨rfl, rfl, rfl, rfl⟩

/-- If sized mode is on, the file worker was spawned. -/
theorem movesSize_spawnsFile {cfg : Config} (h : movesSizeReceiver cfg = true) :
    spawnsFile cfg = true := by
  unfold movesSizeReceiver at h
  unfold spawnsFile
  cases hc : cfg.export_file.isSome
  · rw [hc] at h
    simp_all
  · rfl

/-- Classification only ever appends to the four queues. -/
theorem classify_queues (s : ProbeState) (uri : Uri) (res : Response) :
    (∃ e, (classify s uri res).chans.tx.queue = s.chans.tx.queue ++ e) ∧
    (∃ e, (classify s uri res).chans.tx_hook.queue = s.chans.tx_hook.queue ++ e) ∧
    (∃ e, (classify s uri res).chans.tx_tg.queue = s.chans.tx_tg.queue ++ e) ∧
    (∃ e, (classify s uri res).chans.tx_size.queue = s.chans.tx_size.queue ++ e) := by
  by_cases h : res.status = 200
  · have hc := classify_chans_success s uri res h
    refine ⟨⟨_, by rw [hc.1, Chan.send_queue]⟩,
            ⟨_, by rw [hc.2.1, Chan.send_queue]⟩,
            ⟨_, by rw [hc.2.2.1, Chan.send_queue]⟩, ?_⟩
    rw [hc.2.2.2]
    cases declaredSize res with
    | none => exact ⟨[], by simp⟩
    | some n => exact ⟨_, by rw [Chan.send_queue]⟩
  · rw [show (classify s uri res).chans = s.chans from
      classify_chans_failure s uri res h]
    exact ⟨⟨[], by simp⟩, ⟨[], by simp⟩, ⟨[], by simp⟩, ⟨[], by simp⟩⟩

/-- One process step neither kills the receiver nor consumes the queue of
any channel whose sink worker was not spawned. -/
theorem runStep_preserves_unspawned (cfg : Config) {st st' : RunState}
    (h : RunStep cfg st st') :
    (spawnsFile cfg = false →
        st'.probe.chans.tx.receiver_alive = st.probe.chans.tx.receiver_alive ∧
        ∃ e, st'.probe.chans.tx.queue = st.probe.chans.tx.queue ++ e) ∧
    (spawnsWebhook cfg = false →
        st'.probe.chans.tx_hook.receiver_alive = st.probe.chans.tx_hook.receiver_alive ∧
        ∃ e, st'.probe.chans.tx_hook.queue = st.probe.chans.tx_hook.queue ++ e) ∧
    (spawnsTelegram cfg = false →
        st'.probe.chans.tx_tg.receiver_alive = st.probe.chans.tx_tg.receiver_alive ∧
        ∃ e, st'.probe.chans.tx_tg.queue = st.probe.chans.tx_tg.queue ++ e) ∧
    (movesSizeReceiver cfg = false →
        st'.probe.chans.tx_size.receiver_alive = st.probe.chans.tx_size.receiver_alive ∧
        ∃ e, st'.probe.chans.tx_size.queue = st.probe.chans.tx_size.queue ++ e) := by
  cases h with
  | probe uri res =>
    have ha := classify_alive st.probe uri res
    have hq := classify_queues st.probe uri res
    exact ⟨fun _ => ⟨ha.1, hq.1⟩, fun _ => ⟨ha.2.1, hq.2.1⟩,
           fun _ => ⟨ha.2.2.1, hq.2.2.1⟩, fun _ => ⟨ha.2.2.2, hq.2.2.2⟩⟩
  | report =>
    exact ⟨fun _ => ⟨rfl, [], by simp⟩, fun _ => ⟨rfl, [], by simp⟩,
           fun _ => ⟨rfl, [], by simp⟩, fun _ => ⟨rfl, [], by simp⟩⟩
  | fileWritePlain url ch' ok h1 h2 h3 h4 =>
    cases ok with
    | true =>
      exact ⟨fun h => (by rw [h1] at h; cases h),
             fun _ => ⟨rfl, [], by simp⟩, fun _ => ⟨rfl, [], by simp⟩,
             fun _ => ⟨rfl, [], by simp⟩⟩
    | false =>
      refine ⟨fun h => (by rw [h1] at h; cases h),
             fun _ => ⟨by simp [fileSinkPanic], [], by simp [fileSinkPanic]⟩,
             fun _ => ⟨by simp [fileSinkPanic], [], by simp [fileSinkPanic]⟩,
             fun h => ⟨by simp [fileSinkPanic, h2], [], by simp [fileSinkPanic, h2]⟩⟩
  | fileWriteSized url ch' size szch' ok h1 h2 h3 h4 =>
    cases ok with
    | true =>
      exact ⟨fun h => (by rw [movesSize_spawnsFile h1] at h; cases h),
             fun _ => ⟨rfl, [], by simp⟩, fun _ => ⟨rfl, [], by simp⟩,
             fun h => (by rw [h1] at h; cases h)⟩
    | false =>
      exact ⟨fun h => (by rw [movesSize_spawnsFile h1] at h; cases h),
             fun _ => ⟨by simp [fileSinkPanic], [], by simp [fileSinkPanic]⟩,
             fun _ => ⟨by simp [fileSinkPanic], [], by simp [fileSinkPanic]⟩,
             fun h => (by rw [h1] at h; cases h)⟩
  | fileSkipSized url ch' h1 h2 h3 h4 =>
    exact ⟨fun h => (by rw [movesSize_spawnsFile h1] at h; cases h),
           fun _ => ⟨rfl, [], by simp⟩, fun _ => ⟨rfl, [], by simp⟩,
           fun h => (by rw [h1] at h; cases h)⟩
  | hookRecv url ch' h1 h2 =>
    exact ⟨fun _ => ⟨rfl, [], by simp⟩,
           fun h => (by rw [h1] at h; cases h),
           fun _ => ⟨rfl, [], by simp⟩, fun _ => ⟨rfl, [], by simp⟩⟩
  | tgRecv url ch' h1 h2 =>
    exact ⟨fun _ => ⟨rfl, [], by simp⟩, fun _ => ⟨rfl, [], by simp⟩,
           fun h => (by rw [h1] at h; cases h),
           fun _ => ⟨rfl, [], by simp⟩⟩

/-- C10: on every successful probe the prober sends the rebuilt URL into
all three sink channels and, when a parseable Content-Length is present,
the size into the size channel — `classify` takes no configuration, so this
happens regardless of which sinks were enabled; for every sink worker that
`main` did not spawn, the channel's receiver stays bound in the never-
returning `main`, so in every reachable state it is alive, no step ever
consumes from that queue (it only ever grows), and a send onto a live
channel succeeds. -/
theorem C10_unspawned_sinks_accumulate :
    (∀ (s : ProbeState) (uri : Uri) (res : Response), res.status = 200 →
        (classify s uri res).chans.tx = (s.chans.tx.send (uriFormat uri)).1 ∧
        (classify s uri res).chans.tx_hook = (s.chans.tx_hook.send (uriFormat uri)).1 ∧
        (classify s uri res).chans.tx_tg = (s.chans.tx_tg.send (uriFormat uri)).1 ∧
        (∀ n, declaredSize res = some n →
            (classify s uri res).chans.tx_size = (s.chans.tx_size.send n).1)) ∧
    (∀ (cfg : Config) (st : RunState), RunReachable cfg st →
        (spawnsFile cfg = false → st.probe.chans.tx.receiver_alive = true) ∧
        (spawnsWebhook cfg = false → st.probe.chans.tx_hook.receiver_alive = true) ∧
        (spawnsTelegram cfg = false → st.probe.chans.tx_tg.receiver_alive = true) ∧
        (movesSizeReceiver cfg = false → st.probe.chans.tx_size.receiver_alive = true)) ∧
    (∀ (cfg : Config) (st st' : RunState), RunStep cfg st st' →
        (spawnsFile cfg = false →
          ∃ extra, st'.probe.chans.tx.queue = st.probe.chans.tx.queue ++ extra) ∧
        (spawnsWebhook cfg = false →
          ∃ extra, st'.probe.chans.tx_hook.queue = st.probe.chans.tx_hook.queue ++ extra) ∧
        (spawnsTelegram cfg = false →
          ∃ extra, st'.probe.chans.tx_tg.queue = st.probe.chans.tx_tg.queue ++ extra) ∧
        (movesSizeReceiver cfg = false →
          ∃ extra, st'.probe.chans.tx_size.queue = st.probe.chans.tx_size.queue ++ extra)) ∧
    (∀ (ch : Chan String) (x : String), ch.receiver_alive = true →
        (ch.send x).2 = false) := by
  refine ⟨?_, ?_, ?_, ?_⟩
  · intro s uri res h
    have hc := classify_chans_success s uri res h
    refine ⟨hc.1, hc.2.1, hc.2.2.1, ?_⟩
    intro n hn
    rw [hc.2.2.2, hn]
  · intro cfg st hreach
    induction hreach with
    | init =>
      simp [RunState.init, ProbeState.init, Channels.init]
    | step hr hs ih =>
      obtain ⟨ih1, ih2, ih3, ih4⟩ := ih
      have hp := runStep_preserves_unspawned cfg hs
      exact ⟨fun h => by rw [(hp.1 h).1]; exact ih1 h,
             fun h => by rw [(hp.2.1 h).1]; exact ih2 h,
             fun h => by rw [(hp.2.2.1 h).1]; exact ih3 h,
             fun h => by rw [(hp.2.2.2 h).1]; exact ih4 h⟩
  · intro cfg st st' hs
    have hp := runStep_preserves_unspawned cfg hs
    exact ⟨fun h => (hp.1 h).2, fun h => (hp.2.1 h).2,
           fun h => (hp.2.2.1 h).2, fun h => (hp.2.2.2 h).2⟩
  · intro ch x h
    simp [Chan.send, h]

/-- Witness for C10: in the initial state of a run with no sinks enabled,
every receiver is alive. -/
theorem C10_unspawned_sinks_accumulate_witness :
    (RunState.init ⟨none, none, none, none, none, false⟩).probe.chans.tx_hook.receiver_alive
      = true :=
  ((C10_unspawned_sinks_accumulate.2.1 ⟨none, none, none, none, none, false⟩
      (RunState.init ⟨none, none, none, none, none, false⟩)
      RunReachable.init).2.1) rfl

end ImgurEnum
